import Mathlib

/-!
Verification development for the WhatsApp dental-clinic assistant
(`src/main.py`, `src/db.py`).  The Python code is shallowly embedded:

* calendar dates are a `Date` structure compared lexicographically, as
  Python's `datetime.date` does;
* `datetime.datetime.strptime(s, "%Y-%m-%d")` is modelled by `strptimeYmd`,
  following the regex CPython compiles for that format string;
* Python/JSON values are the inductive `PyVal`; `json.loads` is modelled by
  `jsonLoads`; attribute/subscript access that can raise is modelled with
  `Except`;
* the appointments table is a `List Appointment`, grown by
  `createAppointment` and read through `orderByTimeAsc`;
* the webhook handlers `verify_webhook` and `handle_webhook`, the Gemini
  wrapper `get_gemini_response`, and the intent-dispatch block inside
  `handle_webhook` (`dispatchAction`) are translated function by function.
-/

namespace ClinicBot

/-! ### Calendar dates (`datetime.date`) -/

/-- A calendar date as carried by Python's `datetime.date`. -/
structure Date where
  year : Nat
  month : Nat
  day : Nat
deriving DecidableEq, Repr

/-- Python's `date < date`: lexicographic comparison of (year, month, day). -/
def Date.ltb (a b : Date) : Bool :=
  if a.year < b.year then true
  else if b.year < a.year then false
  else if a.month < b.month then true
  else if b.month < a.month then false
  else decide (a.day < b.day)

/-- Non-strict date comparison, `a ≤ b` as a Bool. -/
def dateLeb (a b : Date) : Bool := !(Date.ltb b a)

/-- Gregorian leap-year rule used by `datetime.date`. -/
def isLeapYear (y : Nat) : Bool :=
  y % 4 = 0 && (y % 100 ≠ 0 || y % 400 = 0)

/-- Days in a month, as validated by the `datetime.date` constructor. -/
def daysInMonth (y m : Nat) : Nat :=
  if m = 2 then (if isLeapYear y then 29 else 28)
  else if m = 4 ∨ m = 6 ∨ m = 9 ∨ m = 11 then 30
  else 31

/-! ### `strptime(s, "%Y-%m-%d")`

CPython's `_strptime` compiles the format `"%Y-%m-%d"` to the regex
`(?P<Y>\d\d\d\d)-(?P<m>1[0-2]|0[1-9]|[1-9])-(?P<d>3[0-1]|[1-2]\d|0[1-9]|[1-9]| [1-9])`,
requires the match to consume the whole string ("unconverted data remains"
otherwise), and then builds a `datetime.date`, which raises `ValueError`
for year 0 or a day beyond the month's length.  The month and day
alternations, matched left to right with the trailing `-` (for the month)
or the end of the string (for the day), reduce to the explicit token cases
below. -/

def digitVal (c : Char) : Nat := c.toNat - 48

/-- Splits off the maximal leading run of ASCII digits. -/
def takeDigits : List Char → List Char × List Char
  | [] => ([], [])
  | c :: cs =>
    if c.isDigit then
      let p := takeDigits cs
      (c :: p.1, p.2)
    else ([], c :: cs)

/-- Decimal value of a digit run. -/
def natOfDigits (ds : List Char) : Nat :=
  ds.foldl (fun a c => a * 10 + digitVal c) 0

/-- Year group `\d\d\d\d` (exactly four digits) followed by the literal `-`. -/
def parseYearDash (cs : List Char) : Option (Nat × List Char) :=
  match cs with
  | y1 :: y2 :: y3 :: y4 :: '-' :: r =>
    if y1.isDigit ∧ y2.isDigit ∧ y3.isDigit ∧ y4.isDigit then
      some (natOfDigits [y1, y2, y3, y4], r)
    else none
  | _ => none

/-- Month group `(1[0-2]|0[1-9]|[1-9])` followed by the literal `-`,
with the regex's left-to-right alternation and backtracking. -/
def parseMonthDash (cs : List Char) : Option (Nat × List Char) :=
  match cs with
  | a :: b :: rest =>
    if a = '1' ∧ ('0' ≤ b ∧ b ≤ '2') ∧ rest.head? = some '-' then
      some (10 + digitVal b, rest.tail)
    else if a = '0' ∧ ('1' ≤ b ∧ b ≤ '9') ∧ rest.head? = some '-' then
      some (digitVal b, rest.tail)
    else if ('1' ≤ a ∧ a ≤ '9') ∧ b = '-' then
      some (digitVal a, rest)
    else none
  | _ => none

/-- Day group `(3[0-1]|[1-2]\d|0[1-9]|[1-9]| [1-9])`; the regex match must
end exactly at the end of the string, so a leftover character is a
failure. -/
def parseDayEnd (cs : List Char) : Option Nat :=
  match cs with
  | [a, b] =>
    if a = '3' ∧ ('0' ≤ b ∧ b ≤ '1') then some (30 + digitVal b)
    else if ('1' ≤ a ∧ a ≤ '2') ∧ b.isDigit then some (10 * digitVal a + digitVal b)
    else if a = '0' ∧ ('1' ≤ b ∧ b ≤ '9') then some (digitVal b)
    else if a = ' ' ∧ ('1' ≤ b ∧ b ≤ '9') then some (digitVal b)
    else none
  | [a] => if '1' ≤ a ∧ a ≤ '9' then some (digitVal a) else none
  | _ => none

/-- Models `datetime.datetime.strptime(s, "%Y-%m-%d").date()`:
regex match of the whole string, then calendar validation. -/
def strptimeYmd (s : String) : Option Date :=
  match parseYearDash s.data with
  | none => none
  | some (y, r1) =>
    match parseMonthDash r1 with
    | none => none
    | some (m, r2) =>
      match parseDayEnd r2 with
      | none => none
      | some d =>
        if 1 ≤ y ∧ d ≤ daysInMonth y m then some ⟨y, m, d⟩ else none

/-- Two-digit zero padding, as `%m` / `%d` produce. -/
def pad2 (n : Nat) : String := if n < 10 then "0" ++ toString n else toString n

/-- Models `date.strftime("%Y-%m-%d")`: month and day zero-padded to two
digits, the year printed as a plain decimal (every date handled by this
system has a four-digit year, for which this matches `%Y`). -/
def strftimeYmd (d : Date) : String :=
  toString d.year ++ "-" ++ pad2 d.month ++ "-" ++ pad2 d.day

/-! ### Python/JSON values

`PyVal` covers the values that flow through the handler: the result of
`request.json()`, of `json.loads`, and the strings the code builds.
Numbers are kept as their JSON lexeme — the code never computes with them,
it only tests truthiness and compares against strings. -/

inductive PyVal where
  | none : PyVal
  | bool : Bool → PyVal
  | num : String → PyVal
  | str : String → PyVal
  | list : List PyVal → PyVal
  | dict : List (String × PyVal) → PyVal

/-- First binding of a key in a field list (field lists built by
`jsonLoads` have unique keys, later duplicates overwriting earlier ones). -/
def dictLookup : List (String × PyVal) → String → Option PyVal
  | [], _ => Option.none
  | (k, v) :: rest, key => if k = key then some v else dictLookup rest key

/-- Truthiness of a number lexeme: zero floats/ints are falsy, `NaN`
and the infinities are truthy. -/
def pyNumTruthy (s : String) : Bool :=
  if s.data.any (fun c => c = 'N' ∨ c = 'I') then true
  else (s.data.takeWhile (fun c => ¬ (c = 'e' ∨ c = 'E'))).any
    (fun c => '1' ≤ c ∧ c ≤ '9')

/-- Python truthiness of a value. -/
def pyTruthy : PyVal → Bool
  | .none => false
  | .bool b => b
  | .num s => pyNumTruthy s
  | .str s => !(s == "")
  | .list xs => !xs.isEmpty
  | .dict fs => !fs.isEmpty

/-- Python `v == lit` for a string literal `lit`: only equal strings
compare equal, every other value compares unequal. -/
def pyEqStr (v : PyVal) (lit : String) : Bool :=
  match v with
  | .str t => t == lit
  | _ => false

/-- Models `v.get(k)`: `AttributeError` unless `v` is a dict; a missing key
(or a key bound to JSON `null`) yields Python `None`. -/
def pyGet (v : PyVal) (k : String) : Except Unit PyVal :=
  match v with
  | .dict fs => .ok ((dictLookup fs k).getD .none)
  | _ => .error ()

/-- Models `v[k]` for a string key: `KeyError` when missing,
`TypeError` when `v` is not a dict. -/
def pySub (v : PyVal) (k : String) : Except Unit PyVal :=
  match v with
  | .dict fs =>
    match dictLookup fs k with
    | some x => .ok x
    | Option.none => .error ()
  | _ => .error ()

/-- Models `v[0]`: head of a list, first character of a string
(`IndexError` when empty), `KeyError` on a dict (JSON keys are strings,
so the integer key `0` is never present), `TypeError` otherwise. -/
def pyIndex0 (v : PyVal) : Except Unit PyVal :=
  match v with
  | .list (x :: _) => .ok x
  | .list [] => .error ()
  | .str s =>
    match s.data with
    | c :: _ => .ok (.str (String.singleton c))
    | [] => .error ()
  | _ => .error ()

/-! ### `json.loads`

A recursive-descent parser for the JSON grammar accepted by Python's
`json.loads` in its default strict mode: the four whitespace characters,
`null`/`true`/`false`, `NaN`/`Infinity`/`-Infinity`, numbers
`-?(0|[1-9]\d*)(\.\d+)?([eE][+-]?\d+)?` (kept as lexemes), strings with the
standard escapes (a `\uXXXX` surrogate pair is combined; a lone surrogate,
which Lean strings cannot hold, becomes U+FFFD), arrays, and objects with
string keys where a duplicate key overwrites the earlier binding in place.
Trailing non-whitespace input is a parse failure, as in `json.loads`.
Recursion is fuelled; `jsonLoads` supplies fuel larger than any chain of
recursive calls can consume for its input. -/

def lbraceChar : Char := Char.ofNat 123

def rbraceChar : Char := Char.ofNat 125

def isJsonWs (c : Char) : Bool := c = ' ' ∨ c = '\t' ∨ c = '\n' ∨ c = '\r'

def skipWs : List Char → List Char
  | [] => []
  | c :: cs => if isJsonWs c then skipWs cs else c :: cs

def hexVal (c : Char) : Option Nat :=
  if '0' ≤ c ∧ c ≤ '9' then some (c.toNat - 48)
  else if 'a' ≤ c ∧ c ≤ 'f' then some (c.toNat - 87)
  else if 'A' ≤ c ∧ c ≤ 'F' then some (c.toNat - 55)
  else Option.none

/-- Scalar for a `\uXXXX` escape; lone surrogates map to U+FFFD. -/
def charOfUnit (n : Nat) : Char :=
  if 0xD800 ≤ n ∧ n ≤ 0xDFFF then Char.ofNat 0xFFFD else Char.ofNat n

/-- String body after the opening quote; `acc` holds the characters read so
far in reverse. Control characters are rejected (strict mode). -/
def jsonStringBody : Nat → List Char → List Char → Option (String × List Char)
  | 0, _, _ => Option.none
  | fuel + 1, acc, cs =>
    match cs with
    | [] => Option.none
    | c :: rest =>
      if c = '"' then some (String.mk acc.reverse, rest)
      else if c = '\\' then
        match rest with
        | [] => Option.none
        | e :: r2 =>
          if e = '"' then jsonStringBody fuel ('"' :: acc) r2
          else if e = '\\' then jsonStringBody fuel ('\\' :: acc) r2
          else if e = '/' then jsonStringBody fuel ('/' :: acc) r2
          else if e = 'b' then jsonStringBody fuel (Char.ofNat 8 :: acc) r2
          else if e = 'f' then jsonStringBody fuel (Char.ofNat 12 :: acc) r2
          else if e = 'n' then jsonStringBody fuel ('\n' :: acc) r2
          else if e = 'r' then jsonStringBody fuel ('\r' :: acc) r2
          else if e = 't' then jsonStringBody fuel ('\t' :: acc) r2
          else if e = 'u' then
            match r2 with
            | h1 :: h2 :: h3 :: h4 :: r3 =>
              match hexVal h1, hexVal h2, hexVal h3, hexVal h4 with
              | some a, some b, some c', some d =>
                let n1 := ((a * 16 + b) * 16 + c') * 16 + d
                if 0xD800 ≤ n1 ∧ n1 ≤ 0xDBFF then
                  match r3 with
                  | '\\' :: 'u' :: g1 :: g2 :: g3 :: g4 :: r4 =>
                    match hexVal g1, hexVal g2, hexVal g3, hexVal g4 with
                    | some a2, some b2, some c2, some d2 =>
                      let n2 := ((a2 * 16 + b2) * 16 + c2) * 16 + d2
                      if 0xDC00 ≤ n2 ∧ n2 ≤ 0xDFFF then
                        let combined := 0x10000 + (n1 - 0xD800) * 0x400 + (n2 - 0xDC00)
                        jsonStringBody fuel (Char.ofNat combined :: acc) r4
                      else jsonStringBody fuel (charOfUnit n1 :: acc) r3
                    | _, _, _, _ => jsonStringBody fuel (charOfUnit n1 :: acc) r3
                  | _ => jsonStringBody fuel (charOfUnit n1 :: acc) r3
                else jsonStringBody fuel (charOfUnit n1 :: acc) r3
              | _, _, _, _ => Option.none
            | _ => Option.none
          else Option.none
      else if c.toNat < 32 then Option.none
      else jsonStringBody fuel (c :: acc) rest

/-- Parse a JSON string immediately after its opening quote. -/
def jsonString (cs : List Char) : Option (String × List Char) :=
  jsonStringBody (cs.length + 1) [] cs

/-- Integer part `(0|[1-9]\d*)` of a JSON number. -/
def lexIntPart : List Char → Option (List Char × List Char)
  | '0' :: rest => some (['0'], rest)
  | c :: rest =>
    if '1' ≤ c ∧ c ≤ '9' then
      let p := takeDigits rest
      some (c :: p.1, p.2)
    else Option.none
  | [] => Option.none

/-- Lex a JSON number (after an optional leading minus handled by the
caller passing it in `cs`), producing its lexeme. -/
def lexNumber (cs : List Char) : Option (PyVal × List Char) :=
  let sp := match cs with
    | '-' :: r => (['-'], r)
    | _ => (([] : List Char), cs)
  match lexIntPart sp.2 with
  | Option.none => Option.none
  | some (ip, cs2) =>
    let fp : List Char × List Char :=
      match cs2 with
      | '.' :: r =>
        let p := takeDigits r
        if p.1.isEmpty then ([], cs2) else ('.' :: p.1, p.2)
      | _ => ([], cs2)
    let ep : List Char × List Char :=
      match fp.2 with
      | e :: r =>
        if e = 'e' ∨ e = 'E' then
          let sr : List Char × List Char :=
            match r with
            | '+' :: r' => (['+'], r')
            | '-' :: r' => (['-'], r')
            | _ => ([], r)
          let p := takeDigits sr.2
          if p.1.isEmpty then ([], fp.2) else (e :: (sr.1 ++ p.1), p.2)
        else ([], fp.2)
      | [] => ([], fp.2)
    some (.num (String.mk (sp.1 ++ ip ++ fp.1 ++ ep.1)), ep.2)

mutual

/-- Parse one JSON value, skipping leading whitespace. -/
def jsonValue : Nat → List Char → Option (PyVal × List Char)
  | 0, _ => Option.none
  | fuel + 1, cs =>
    match skipWs cs with
    | [] => Option.none
    | c :: rest =>
      if c = '"' then
        match jsonString rest with
        | some (s, r) => some (.str s, r)
        | Option.none => Option.none
      else if c = lbraceChar then
        match skipWs rest with
        | c2 :: r2 =>
          if c2 = rbraceChar then some (.dict [], r2)
          else jsonMembers fuel [] (c2 :: r2)
        | [] => Option.none
      else if c = '[' then
        match skipWs rest with
        | ']' :: r2 => some (.list [], r2)
        | r2 => jsonElements fuel [] r2
      else if c = 'n' then
        match rest with
        | 'u' :: 'l' :: 'l' :: r => some (.none, r)
        | _ => Option.none
      else if c = 't' then
        match rest with
        | 'r' :: 'u' :: 'e' :: r => some (.bool true, r)
        | _ => Option.none
      else if c = 'f' then
        match rest with
        | 'a' :: 'l' :: 's' :: 'e' :: r => some (.bool false, r)
        | _ => Option.none
      else if c = 'N' then
        match rest with
        | 'a' :: 'N' :: r => some (.num "NaN", r)
        | _ => Option.none
      else if c = 'I' then
        match rest with
        | 'n' :: 'f' :: 'i' :: 'n' :: 'i' :: 't' :: 'y' :: r => some (.num "Infinity", r)
        | _ => Option.none
      else if c = '-' then
        match rest with
        | 'I' :: 'n' :: 'f' :: 'i' :: 'n' :: 'i' :: 't' :: 'y' :: r =>
          some (.num "-Infinity", r)
        | _ => lexNumber (c :: rest)
      else if c.isDigit then lexNumber (c :: rest)
      else Option.none

/-- Members of an object after its opening brace (non-empty case);
a duplicate key overwrites the earlier binding in place, as `dict` does. -/
def jsonMembers : Nat → List (String × PyVal) → List Char → Option (PyVal × List Char)
  | 0, _, _ => Option.none
  | fuel + 1, acc, cs =>
    match skipWs cs with
    | c :: rest =>
      if c = '"' then
        match jsonString rest with
        | some (key, r1) =>
          match skipWs r1 with
          | ':' :: r2 =>
            match jsonValue fuel r2 with
            | some (v, r3) =>
              let acc' :=
                if (dictLookup acc key).isSome then
                  acc.map (fun kv => if kv.1 = key then (key, v) else kv)
                else acc ++ [(key, v)]
              match skipWs r3 with
              | ',' :: r4 => jsonMembers fuel acc' r4
              | c5 :: r5 =>
                if c5 = rbraceChar then some (.dict acc', r5) else Option.none
              | [] => Option.none
            | Option.none => Option.none
          | _ => Option.none
        | Option.none => Option.none
      else Option.none
    | [] => Option.none

/-- Elements of an array after its opening bracket (non-empty case). -/
def jsonElements : Nat → List PyVal → List Char → Option (PyVal × List Char)
  | 0, _, _ => Option.none
  | fuel + 1, acc, cs =>
    match jsonValue fuel cs with
    | some (v, r1) =>
      match skipWs r1 with
      | ',' :: r2 => jsonElements fuel (v :: acc) r2
      | ']' :: r2 => some (.list (v :: acc).reverse, r2)
      | _ => Option.none
    | Option.none => Option.none

end

/-- Models `json.loads(s)`: parse one value, then only whitespace may
remain. -/
def jsonLoads (s : String) : Option PyVal :=
  match jsonValue (2 * s.data.length + 2) s.data with
  | some (v, r) => if (skipWs r).isEmpty then some v else Option.none
  | Option.none => Option.none

/-! ### The appointments table (`db.py`) -/

/-- Row of the `appointments` table: auto-assigned primary key,
`name` (CharField), `time` (DateField). -/
structure Appointment where
  id : Nat
  name : String
  time : Date
deriving DecidableEq, Repr

/-- Models `Appointment.create(name=..., time=...)`: inserts one row with
the next key (the store only ever grows, so the auto-increment key is the
row count plus one). -/
def createAppointment (store : List Appointment) (name : String) (time : Date) :
    List Appointment :=
  store ++ [⟨store.length + 1, name, time⟩]

/-- Insert into a date-sorted list, keeping it sorted. -/
def insertByTime (a : Appointment) : List Appointment → List Appointment
  | [] => [a]
  | b :: bs => if dateLeb a.time b.time then a :: b :: bs else b :: insertByTime a bs

/-- Models `Appointment.select().order_by(Appointment.time.asc())`: the
rows sorted by date ascending.  SQL leaves the relative order of rows with
equal dates unspecified; the model fixes one deterministic order. -/
def orderByTimeAsc : List Appointment → List Appointment
  | [] => []
  | a :: rest => insertByTime a (orderByTimeAsc rest)

/-! ### Reply texts (the string literals of `main.py`) -/

def audioFailMsg : String := "معلش، مقدرتش أسمع الرسالة الصوتية. ممكن تبعتها تاني أو تكتب سؤالك؟"

def pastDateMsg : String := "معلش، التاريخ اللي طلبته فات. ممكن تختار تاريخ في المستقبل؟"

def badFormatMsg : String := "معلش، صيغة التاريخ مش مظبوطة. ياريت تبعت التاريخ بصيغة سنة-شهر-يوم (YYYY-MM-DD) زي 2025-07-15."

def dbErrorMsg : String := "آسف، حصل مشكلة في تسجيل الميعاد. ممكن تكلم العيادة على طول على الرقم ده: +20 2 1234-5678"

def missingFieldsMsg : String := "معلش، محتاج الاسم والتاريخ عشان أقدر أساعدك في طلب حجز الميعاد. ممكن توضح أكتر؟"

def listHeaderMsg : String := "المواعيد المسجلة حالياً:"

def noAppointmentsMsg : String := "مفيش مواعيد مسجلة حالياً."

def clarifyMsg : String := "آسف، حصل خطأ في فهم طلبك. ممكن توضح أكتر؟"

def unexpectedErrMsg : String := "آسف، حصل خطأ غير متوقع. يرجى المحاولة مرة أخرى لاحقًا."

def geminiParseFallbackMsg : String := "آسف، حصل خطأ في فهم طلبي. ممكن توضح أكتر؟"

def geminiApiErrorMsg : String := "آسف، حصل مشكلة عندي. ممكن تكلم العيادة على طول على الرقم ده: +20 2 1234-5678"

/-- The confirmation f-string of line 187, echoing name and raw date
string. -/
def confirmMsg (name dateStr : String) : String :=
  "تمام يا فندم، تم تسجيل طلب حجز ميعاد باسم " ++ name ++ " يوم " ++ dateStr ++
    ". بس خلي بالك، أنا مساعد ذكي ومبحجزش بنفسي، لازم تتصل بالعيادة على +20 2 1234-5678 عشان تأكد الميعاد ده."

/-- One listing line (line 201): `- <name> يوم <date>`. -/
def appointmentLine (a : Appointment) : String :=
  "- " ++ a.name ++ " يوم " ++ strftimeYmd a.time

/-! ### `get_gemini_response` -/

/-- Outcome of the Gemini call as seen by `get_gemini_response`: either
`model.generate_content` (or building the model) raised, or it returned
and `response.text` is `raw`. -/
inductive GeminiOutcome where
  | apiError : GeminiOutcome
  | text : String → GeminiOutcome

/-- Whitespace stripped by `str.strip()` (the ASCII part; the rarer
Unicode space characters Python also strips do not occur here). -/
def isPySpace (c : Char) : Bool :=
  c = ' ' ∨ c = '\t' ∨ c = '\n' ∨ c = '\r' ∨ c = '\x0b' ∨ c = '\x0c'

/-- Models `str.strip()`: drop whitespace from both ends. -/
def pyStrip (s : String) : String :=
  String.mk (((s.data.dropWhile isPySpace).reverse.dropWhile isPySpace).reverse)

/-- Models `get_gemini_response` (lines 244-267): parse the response text
as JSON; on `json.JSONDecodeError` fall back to a chat record carrying the
stripped raw text (or an apology when that is empty); on an API error fall
back to a chat record pointing at the clinic's phone number. -/
def get_gemini_response (o : GeminiOutcome) : PyVal :=
  match o with
  | .apiError => .dict [("action", .str "chat"), ("response", .str geminiApiErrorMsg)]
  | .text raw =>
    match jsonLoads raw with
    | some v => v
    | Option.none =>
      .dict [("action", .str "chat"),
        ("response", .str (if pyStrip raw == "" then geminiParseFallbackMsg else pyStrip raw))]

/-! ### The intent-dispatch block (lines 172-209 of `handle_webhook`) -/

/-- Dispatch once the structured response is known to be a dict `fs`:
inspect `action`, perform the side effect on the store, and produce
`response_to_user`.  In the booking branch, `strptime` on a non-string
date raises `TypeError`, caught by the `except Exception` arm (storage
error message); a non-string name makes the database write fail, likewise
caught there. -/
def dispatchRecord (today : Date) (fs : List (String × PyVal))
    (store : List Appointment) : List Appointment × PyVal :=
  let action := (dictLookup fs "action").getD .none
  if pyEqStr action "book_appointment" then
    let nameV := (dictLookup fs "name").getD .none
    let dateV := (dictLookup fs "date").getD .none
    if pyTruthy nameV && pyTruthy dateV then
      match dateV with
      | .str dateStr =>
        match strptimeYmd dateStr with
        | Option.none => (store, .str badFormatMsg)
        | some d =>
          if Date.ltb d today then (store, .str pastDateMsg)
          else
            match nameV with
            | .str name => (createAppointment store name d, .str (confirmMsg name dateStr))
            | _ => (store, .str dbErrorMsg)
      | _ => (store, .str dbErrorMsg)
    else (store, .str missingFieldsMsg)
  else if pyEqStr action "list_appointments" then
    let sorted := orderByTimeAsc store
    if 0 < sorted.length then
      (store, .str (String.intercalate "\n" (listHeaderMsg :: sorted.map appointmentLine)))
    else (store, .str noAppointmentsMsg)
  else if pyEqStr action "chat" then
    (store, (dictLookup fs "response").getD (.str clarifyMsg))
  else
    (store, (dictLookup fs "response").getD (.str clarifyMsg))

/-- The dispatch block as applied to the value `get_gemini_response`
returned: the `.get("action")` at line 172 raises `AttributeError` when
that value is not a dict, and that is the only exception escaping the
block. -/
def dispatchAction (today : Date) (resp : PyVal) (store : List Appointment) :
    Except Unit (List Appointment × PyVal) :=
  match resp with
  | .dict fs => .ok (dispatchRecord today fs store)
  | _ => .error ()

/-- The structured record Gemini is prompted to emit for a booking. -/
def bookRecord (name dateStr : String) : PyVal :=
  .dict [("action", .str "book_appointment"), ("name", .str name), ("date", .str dateStr)]

/-- The structured record Gemini is prompted to emit for a listing. -/
def listRecord : PyVal := .dict [("action", .str "list_appointments")]

/-! ### `GET /webhook` (`verify_webhook`, lines 114-123) -/

/-- Models `int(s)` on a decimal string: surrounding whitespace, an
optional sign, then digits (the exotic forms Python also accepts, such as
underscore separators, do not occur here). -/
def pyIntOfString (s : String) : Option Int :=
  match (pyStrip s).data with
  | '+' :: ds =>
    if ds ≠ [] ∧ ds.all Char.isDigit then some (natOfDigits ds) else Option.none
  | '-' :: ds =>
    if ds ≠ [] ∧ ds.all Char.isDigit then some (-(natOfDigits ds : Int)) else Option.none
  | ds =>
    if ds ≠ [] ∧ ds.all Char.isDigit then some (natOfDigits ds) else Option.none

/-- Result of a `GET /webhook` request. -/
inductive VerifyResult where
  | challenge : Int → VerifyResult
  | forbidden : VerifyResult
  | serverError : VerifyResult
deriving DecidableEq, Repr

/-- Models `verify_webhook`: query parameters are optional strings; when
`hub.mode` is `subscribe` and `hub.verify_token` equals the configured
secret the handler returns `int(challenge)` — `int` raising `TypeError`
(missing parameter) or `ValueError` (non-numeric) escapes as a 500 —
otherwise it raises a 403 `HTTPException`. -/
def verify_webhook (verifyToken : String)
    (mode token challenge : Option String) : VerifyResult :=
  if mode = some "subscribe" ∧ token = some verifyToken then
    match challenge with
    | some c =>
      match pyIntOfString c with
      | some n => .challenge n
      | Option.none => .serverError
    | Option.none => .serverError
  else .forbidden

/-! ### `POST /webhook` (`handle_webhook`, lines 125-217) -/

/-- HTTP outcome of a `POST /webhook` delivery: the generic
acknowledgement, or a 500 when an exception escapes the handler. -/
inductive HttpResp where
  | ok : HttpResp
  | serverError : HttpResp
deriving DecidableEq, Repr

/-- What a run of `handle_webhook` did: the store afterwards, the
`send_message` calls attempted (recipient, body) in order, and the HTTP
response. -/
structure WebhookResult where
  store : List Appointment
  sends : List (PyVal × PyVal)
  resp : HttpResp

/-- Models `handle_webhook`.  `body` is the parsed JSON request body,
`gem` the outcome of the Gemini call, `audioOk` whether
`get_whatsapp_media_bytes` returned truthy bytes; outbound sends are
assumed to succeed.  An exception inside the `try` block is caught at line
213, but the `except` arm itself reads `sender_phone`; when the exception
was raised before line 140 bound it, that read raises
`UnboundLocalError`, which escapes the handler and turns into a 500. -/
def handle_webhook (today : Date) (gem : GeminiOutcome) (audioOk : Bool)
    (body : PyVal) (store : List Appointment) : WebhookResult :=
  -- fate of an exception raised inside the try block
  let caught : Option PyVal → WebhookResult := fun sender =>
    match sender with
    | some s => ⟨store, [(s, .str unexpectedErrMsg)], .ok⟩
    | Option.none => ⟨store, [], .serverError⟩
  -- the Gemini call and dispatch, reached with a bound sender
  let dispatchPhase : PyVal → WebhookResult := fun sender =>
    match dispatchAction today (get_gemini_response gem) store with
    | .ok (store', reply) => ⟨store', [(sender, reply)], .ok⟩
    | .error _ => caught (some sender)
  let ack : WebhookResult := ⟨store, [], .ok⟩
  match pyGet body "object" with
  | .error _ => caught Option.none
  | .ok objV =>
  if pyTruthy objV then
    match pyGet body "entry" with
    | .error _ => caught Option.none
    | .ok entryV =>
    if pyTruthy entryV then
      match pySub body "entry" with
      | .error _ => caught Option.none
      | .ok e =>
      if pyTruthy e then
        match pyIndex0 e with
        | .error _ => caught Option.none
        | .ok e0 =>
        match pyGet e0 "changes" with
        | .error _ => caught Option.none
        | .ok chV =>
        if pyTruthy chV then
          match pySub e0 "changes" with
          | .error _ => caught Option.none
          | .ok ch =>
          match pyIndex0 ch with
          | .error _ => caught Option.none
          | .ok ch0 =>
          match pyGet ch0 "value" with
          | .error _ => caught Option.none
          | .ok valV =>
          if pyTruthy valV then
            match pySub ch0 "value" with
            | .error _ => caught Option.none
            | .ok v =>
            match pyGet v "messages" with
            | .error _ => caught Option.none
            | .ok msgsV =>
            if pyTruthy msgsV then
              match pySub v "messages" with
              | .error _ => caught Option.none
              | .ok msgs =>
              match pyIndex0 msgs with
              | .error _ => caught Option.none
              | .ok msg =>
              match pySub msg "from" with
              | .error _ => caught Option.none   -- sender_phone never bound
              | .ok sender =>
              match pySub msg "type" with
              | .error _ => caught (some sender)
              | .ok msgType =>
              if pyEqStr msgType "text" then
                match pySub msg "text" with
                | .error _ => caught (some sender)
                | .ok t =>
                match pySub t "body" with
                | .error _ => caught (some sender)
                | .ok _userText => dispatchPhase sender
              else if pyEqStr msgType "audio" then
                match pySub msg "audio" with
                | .error _ => caught (some sender)
                | .ok a =>
                match pySub a "id" with
                | .error _ => caught (some sender)
                | .ok _audioId =>
                if audioOk then dispatchPhase sender
                else ⟨store, [(sender, .str audioFailMsg)], .ok⟩
              else ack   -- gemini_input_parts stays empty: no reply
            else ack
          else ack
        else ack
      else ack
    else ack
  else ack

/-- Substring containment used to state "the reply contains ...". -/
def containsSub (s t : String) : Prop := ∃ l r : String, s = l ++ (t ++ r)

/-- A well-formed webhook payload whose message carries everything except
the sender field `from`. -/
def missingFromPayload : PyVal :=
  .dict [("object", .bool true),
    ("entry", .list [.dict [("changes", .list [.dict [("value",
      .dict [("messages", .list [.dict [("type", .str "text"),
        ("text", .dict [("body", .str "hi")])]])])]])]])]

/-- Strict calendar format, following the spec's words "the strict calendar
format YYYY-MM-DD": exactly four digits, a dash, two digits, a dash, two
digits. -/
def specStrictYmdFormat (s : String) : Bool :=
  match s.data with
  | [y1, y2, y3, y4, '-', m1, m2, '-', d1, d2] =>
    y1.isDigit && y2.isDigit && y3.isDigit && y4.isDigit &&
      m1.isDigit && m2.isDigit && d1.isDigit && d2.isDigit
  | _ => false

/-- A model output wrapped in a code-fence marker tagged as a JSON block,
as the claims describe. -/
def mkFenced (raw : String) : String := "```json\n" ++ raw ++ "\n```"

/-- The backtick character (written via its code point, since the fence
marker is data here, not syntax). -/
def backtickChar : Char := Char.ofNat 96

/-! ### Helper lemmas -/

theorem Date.ltb_iff (a b : Date) : Date.ltb a b = true ↔
    (a.year < b.year ∨ (a.year = b.year ∧
      (a.month < b.month ∨ (a.month = b.month ∧ a.day < b.day)))) := by
  unfold Date.ltb
  split_ifs <;> simp_all <;> omega

theorem dateLeb_iff (a b : Date) : dateLeb a b = true ↔ Date.ltb b a = false := by
  unfold dateLeb
  cases Date.ltb b a <;> simp

theorem dateLeb_total (a b : Date) : dateLeb a b = true ∨ dateLeb b a = true := by
  rw [dateLeb_iff, dateLeb_iff, ← Bool.not_eq_true, ← Bool.not_eq_true,
    Date.ltb_iff, Date.ltb_iff]
  omega

theorem dateLeb_trans {a b c : Date} (h1 : dateLeb a b = true)
    (h2 : dateLeb b c = true) : dateLeb a c = true := by
  rw [dateLeb_iff, ← Bool.not_eq_true, Date.ltb_iff] at h1 h2 ⊢
  omega

theorem insertByTime_perm (a : Appointment) (l : List Appointment) :
    (insertByTime a l).Perm (a :: l) := by
  induction l with
  | nil => exact List.Perm.refl _
  | cons b bs ih =>
    unfold insertByTime
    split
    · exact List.Perm.refl _
    · exact (ih.cons b).trans (List.Perm.swap a b bs)

theorem orderByTimeAsc_perm (l : List Appointment) : (orderByTimeAsc l).Perm l := by
  induction l with
  | nil => exact List.Perm.refl _
  | cons a rest ih =>
    exact (insertByTime_perm a (orderByTimeAsc rest)).trans (ih.cons a)

theorem insertByTime_pairwise {a : Appointment} {l : List Appointment}
    (h : l.Pairwise (fun x y => dateLeb x.time y.time = true)) :
    (insertByTime a l).Pairwise (fun x y => dateLeb x.time y.time = true) := by
  induction l with
  | nil => simp [insertByTime]
  | cons b bs ih =>
    rw [List.pairwise_cons] at h
    unfold insertByTime
    split
    · rename_i hab
      refine List.pairwise_cons.mpr ⟨?_, List.pairwise_cons.mpr h⟩
      intro x hx
      rcases List.mem_cons.mp hx with hxb | hxbs
      · subst hxb; exact hab
      · exact dateLeb_trans hab (h.1 x hxbs)
    · rename_i hab
      refine List.pairwise_cons.mpr ⟨?_, ih h.2⟩
      intro x hx
      rcases List.mem_cons.mp ((insertByTime_perm a bs).mem_iff.mp hx) with hxa | hxbs
      · subst hxa
        rcases dateLeb_total x.time b.time with hle | hle
        · exact absurd hle hab
        · exact hle
      · exact h.1 x hxbs

theorem orderByTimeAsc_pairwise (l : List Appointment) :
    (orderByTimeAsc l).Pairwise (fun x y => dateLeb x.time y.time = true) := by
  induction l with
  | nil => simp [orderByTimeAsc]
  | cons a rest ih => exact insertByTime_pairwise ih

theorem strptimeYmd_ne_empty {s : String} {d : Date}
    (h : strptimeYmd s = some d) : s ≠ "" := by
  intro he
  subst he
  exact Option.noConfusion h

/-- The dispatch block on a `list_appointments` record: pure read of the
store, reply as built at lines 196-204. -/
theorem dispatchAction_listRecord (today : Date) (store : List Appointment) :
    dispatchAction today listRecord store =
      .ok (store, .str (if orderByTimeAsc store = [] then noAppointmentsMsg
        else String.intercalate "\n"
          (listHeaderMsg :: (orderByTimeAsc store).map appointmentLine))) := by
  cases h : orderByTimeAsc store with
  | nil => simp [dispatchAction, listRecord, dispatchRecord, dictLookup, pyEqStr, h]
  | cons x xs => simp [dispatchAction, listRecord, dispatchRecord, dictLookup, pyEqStr, h]

/-- The booking branch for truthy string name and date, before the date is
examined. -/
theorem dispatchAction_bookRecord (today : Date) (store : List Appointment)
    (name dateStr : String) (hname : name ≠ "") (hds : dateStr ≠ "") :
    dispatchAction today (bookRecord name dateStr) store =
      .ok (match strptimeYmd dateStr with
        | Option.none => (store, .str badFormatMsg)
        | some d =>
          if Date.ltb d today then (store, .str pastDateMsg)
          else (createAppointment store name d, .str (confirmMsg name dateStr))) := by
  simp [dispatchAction, bookRecord, dispatchRecord, dictLookup, pyEqStr, pyTruthy,
    hname, hds]

/-! ### Claim theorems -/

/-- C1: for every book_appointment intent with a non-empty name and a date
string that parses (via the code's `strptime(s, "%Y-%m-%d")`) to a date not
before today, dispatch appends exactly one appointment row carrying that
name and that date, and the confirmation reply contains both the name and
the date string. -/
theorem booking_valid_creates_and_echoes
    (today : Date) (store : List Appointment) (name dateStr : String) (d : Date)
    (hname : name ≠ "") (hparse : strptimeYmd dateStr = some d)
    (hfuture : Date.ltb d today = false) :
    dispatchAction today (bookRecord name dateStr) store =
      .ok (store ++ [⟨store.length + 1, name, d⟩], .str (confirmMsg name dateStr)) ∧
    containsSub (confirmMsg name dateStr) name ∧
    containsSub (confirmMsg name dateStr) dateStr := by
  refine ⟨?_, ?_, ?_⟩
  · rw [dispatchAction_bookRecord today store name dateStr hname
      (strptimeYmd_ne_empty hparse), hparse]
    simp [hfuture, createAppointment]
  · exact ⟨"تمام يا فندم، تم تسجيل طلب حجز ميعاد باسم ",
      " يوم " ++ dateStr ++
        ". بس خلي بالك، أنا مساعد ذكي ومبحجزش بنفسي، لازم تتصل بالعيادة على +20 2 1234-5678 عشان تأكد الميعاد ده.",
      by simp [confirmMsg, String.append_assoc]⟩
  · exact ⟨"تمام يا فندم، تم تسجيل طلب حجز ميعاد باسم " ++ name ++ " يوم ",
      ". بس خلي بالك، أنا مساعد ذكي ومبحجزش بنفسي، لازم تتصل بالعيادة على +20 2 1234-5678 عشان تأكد الميعاد ده.",
      by simp [confirmMsg, String.append_assoc]⟩

/-- Witness for C1 at name "Ahmed Mohamed", date "2025-07-15", today
2025-01-01, empty store. -/
theorem booking_valid_creates_and_echoes_witness :
    ("Ahmed Mohamed" : String) ≠ "" ∧
    strptimeYmd "2025-07-15" = some ⟨2025, 7, 15⟩ ∧
    Date.ltb ⟨2025, 7, 15⟩ ⟨2025, 1, 1⟩ = false ∧
    dispatchAction ⟨2025, 1, 1⟩ (bookRecord "Ahmed Mohamed" "2025-07-15") [] =
      .ok ([⟨1, "Ahmed Mohamed", ⟨2025, 7, 15⟩⟩],
        .str (confirmMsg "Ahmed Mohamed" "2025-07-15")) :=
  ⟨by decide, rfl, rfl,
    (booking_valid_creates_and_echoes ⟨2025, 1, 1⟩ [] "Ahmed Mohamed" "2025-07-15"
      ⟨2025, 7, 15⟩ (by decide) rfl rfl).1⟩

/-- C2 as stated is false at a concrete input: a book_appointment intent
with an empty name and the past date 2020-01-01 (today 2025-01-01) gets the
missing-fields reply, not the past-date rejection — the empty-name check
runs before the date check. -/
theorem past_date_claim_counterexample :
    strptimeYmd "2020-01-01" = some ⟨2020, 1, 1⟩ ∧
    Date.ltb ⟨2020, 1, 1⟩ ⟨2025, 1, 1⟩ = true ∧
    dispatchAction ⟨2025, 1, 1⟩ (bookRecord "" "2020-01-01") [] =
      .ok ([], .str missingFieldsMsg) ∧
    missingFieldsMsg ≠ pastDateMsg :=
  ⟨rfl, rfl, rfl, by decide⟩

/-- C2 amended: for every book_appointment intent with a NON-EMPTY name
whose date string parses to a date strictly before today, no appointment is
created and the reply is the past-date-rejection message. -/
theorem past_date_rejected (today : Date) (store : List Appointment)
    (name dateStr : String) (d : Date) (hname : name ≠ "")
    (hparse : strptimeYmd dateStr = some d) (hpast : Date.ltb d today = true) :
    dispatchAction today (bookRecord name dateStr) store =
      .ok (store, .str pastDateMsg) := by
  rw [dispatchAction_bookRecord today store name dateStr hname
    (strptimeYmd_ne_empty hparse), hparse]
  simp [hpast]

/-- Witness for the amended C2 at name "Ali", date "2020-01-01", today
2025-01-01. -/
theorem past_date_rejected_witness :
    ("Ali" : String) ≠ "" ∧
    strptimeYmd "2020-01-01" = some ⟨2020, 1, 1⟩ ∧
    Date.ltb ⟨2020, 1, 1⟩ ⟨2025, 1, 1⟩ = true ∧
    dispatchAction ⟨2025, 1, 1⟩ (bookRecord "Ali" "2020-01-01") [] =
      .ok ([], .str pastDateMsg) :=
  ⟨by decide, rfl, rfl,
    past_date_rejected ⟨2025, 1, 1⟩ [] "Ali" "2020-01-01" ⟨2020, 1, 1⟩
      (by decide) rfl rfl⟩

/-- C3 as stated is false at a concrete input: "2025-7-5" does not conform
to the strict YYYY-MM-DD format, yet the code's `strptime` accepts it
(single-digit month and day), an appointment IS created, and the reply is
the confirmation, not the date-format-error message. -/
theorem strict_format_claim_counterexample :
    specStrictYmdFormat "2025-7-5" = false ∧
    strptimeYmd "2025-7-5" = some ⟨2025, 7, 5⟩ ∧
    dispatchAction ⟨2025, 1, 1⟩ (bookRecord "Ali" "2025-7-5") [] =
      .ok ([⟨1, "Ali", ⟨2025, 7, 5⟩⟩], .str (confirmMsg "Ali" "2025-7-5")) ∧
    confirmMsg "Ali" "2025-7-5" ≠ badFormatMsg :=
  ⟨rfl, rfl, rfl, by decide⟩

/-- C3 amended: booking dates are parsed with CPython's lax
`strptime(s, "%Y-%m-%d")` (four-digit year but unpadded month/day allowed,
calendar-validated), not a strict YYYY-MM-DD match; for every
book_appointment intent with non-empty name and non-empty date string that
this parse rejects (wrong separator, non-numeric, wrong field count,
invalid calendar date), no appointment is created and the reply is the
date-format-error message. -/
theorem bad_format_rejected (today : Date) (store : List Appointment)
    (name dateStr : String) (hname : name ≠ "") (hds : dateStr ≠ "")
    (hparse : strptimeYmd dateStr = Option.none) :
    dispatchAction today (bookRecord name dateStr) store =
      .ok (store, .str badFormatMsg) := by
  rw [dispatchAction_bookRecord today store name dateStr hname hds, hparse]

/-- Witness for the amended C3 at name "Ali", date "2025/07/15" (wrong
separator), today 2025-01-01. -/
theorem bad_format_rejected_witness :
    ("Ali" : String) ≠ "" ∧ ("2025/07/15" : String) ≠ "" ∧
    strptimeYmd "2025/07/15" = Option.none ∧
    dispatchAction ⟨2025, 1, 1⟩ (bookRecord "Ali" "2025/07/15") [] =
      .ok ([], .str badFormatMsg) :=
  ⟨by decide, by decide, rfl,
    bad_format_rejected ⟨2025, 1, 1⟩ [] "Ali" "2025/07/15" (by decide) (by decide) rfl⟩

/-- C4 as stated is false at a concrete input: the model output "\x7b\x7d"
parses as a JSON object lacking `action`, and the reply is the generic
clarification message, not the trimmed raw text. -/
theorem actionless_raw_text_claim_counterexample :
    jsonLoads "\x7b\x7d" = some (.dict []) ∧
    pyStrip "\x7b\x7d" ≠ "" ∧
    dispatchAction ⟨2025, 1, 1⟩ (get_gemini_response (.text "\x7b\x7d")) [] =
      .ok ([], .str clarifyMsg) ∧
    clarifyMsg ≠ pyStrip "\x7b\x7d" :=
  ⟨rfl, by decide, rfl, by decide⟩

/-- C4 amended: a model output that is not parseable as JSON yields a chat
reply equal to the trimmed raw text (or the generic fallback when that is
empty) and leaves the store unchanged — never a crash, never dropped; but
an output that parses as a JSON object lacking the `action` field yields
the object's `response` field when present and the generic clarification
message otherwise, not the raw text. -/
theorem invalid_or_actionless_model_output (today : Date)
    (store : List Appointment) (raw : String) (fs : List (String × PyVal)) :
    (jsonLoads raw = Option.none →
      dispatchAction today (get_gemini_response (.text raw)) store =
        .ok (store,
          .str (if pyStrip raw == "" then geminiParseFallbackMsg else pyStrip raw))) ∧
    (jsonLoads raw = some (.dict fs) → dictLookup fs "action" = Option.none →
      dispatchAction today (get_gemini_response (.text raw)) store =
        .ok (store, (dictLookup fs "response").getD (.str clarifyMsg))) := by
  constructor
  · intro h
    simp [get_gemini_response, h, dispatchAction, dispatchRecord, dictLookup, pyEqStr]
  · intro h ha
    simp [get_gemini_response, h, dispatchAction, dispatchRecord, ha, pyEqStr]

/-- Witness for the amended C4: the unparseable output "  hello  " becomes
the chat reply "hello"; the object without `action` carrying a `response`
field becomes that field. -/
theorem invalid_or_actionless_model_output_witness :
    jsonLoads "  hello  " = Option.none ∧
    dispatchAction ⟨2025, 1, 1⟩ (get_gemini_response (.text "  hello  ")) [] =
      .ok ([], .str "hello") ∧
    jsonLoads "\x7b\"response\": \"hi\"\x7d" = some (.dict [("response", .str "hi")]) ∧
    dispatchAction ⟨2025, 1, 1⟩
        (get_gemini_response (.text "\x7b\"response\": \"hi\"\x7d")) [] =
      .ok ([], .str "hi") := by
  refine ⟨rfl, ?_, rfl, ?_⟩
  · exact (invalid_or_actionless_model_output ⟨2025, 1, 1⟩ [] "  hello  " []).1 rfl
  · exact (invalid_or_actionless_model_output ⟨2025, 1, 1⟩ []
      "\x7b\"response\": \"hi\"\x7d" [("response", .str "hi")]).2 rfl rfl

/-- C5 as stated is false at a concrete input: the unwrapped output
parses to the list_appointments record, while the same output wrapped in a
```json fence fails JSON parsing (no fence stripping exists in the code)
and is extracted as a chat record carrying the fenced text. -/
theorem fenced_output_claim_counterexample :
    get_gemini_response (.text "\x7b\"action\": \"list_appointments\"\x7d") =
      .dict [("action", .str "list_appointments")] ∧
    get_gemini_response (.text (mkFenced "\x7b\"action\": \"list_appointments\"\x7d")) =
      .dict [("action", .str "chat"),
        ("response", .str (mkFenced "\x7b\"action\": \"list_appointments\"\x7d"))] ∧
    get_gemini_response (.text (mkFenced "\x7b\"action\": \"list_appointments\"\x7d")) ≠
      get_gemini_response (.text "\x7b\"action\": \"list_appointments\"\x7d") := by
  refine ⟨rfl, rfl, ?_⟩
  intro h
  rw [show get_gemini_response
        (.text (mkFenced "\x7b\"action\": \"list_appointments\"\x7d")) =
      .dict [("action", .str "chat"),
        ("response", .str (mkFenced "\x7b\"action\": \"list_appointments\"\x7d"))] from rfl,
    show get_gemini_response (.text "\x7b\"action\": \"list_appointments\"\x7d") =
      .dict [("action", .str "list_appointments")] from rfl] at h
  simp at h

/-- C5 amended: the code strips no fence markers, so wrapping any raw model
output in a ```json fence makes the JSON parse fail, and extraction always
yields the invalid-JSON chat fallback carrying the trimmed fenced text —
not the intent extracted from the unwrapped output. -/
theorem fenced_output_always_falls_back (raw : String) :
    jsonLoads (mkFenced raw) = Option.none ∧
    get_gemini_response (.text (mkFenced raw)) =
      .dict [("action", .str "chat"),
        ("response", .str (if pyStrip (mkFenced raw) == "" then geminiParseFallbackMsg
          else pyStrip (mkFenced raw)))] := by
  have hbt : ∀ (fuel : Nat) (cs : List Char),
      jsonValue fuel (backtickChar :: cs) = Option.none := by
    intro fuel cs
    cases fuel with
    | zero => rfl
    | succ n => rfl
  have h1 : (mkFenced raw).data = "```json\n".data ++ (raw.data ++ "\n```".data) := by
    simp [mkFenced, String.data_append]
  have h2 : "```json\n".data = backtickChar :: "``json\n".data := by decide
  have hnone : jsonLoads (mkFenced raw) = Option.none := by
    unfold jsonLoads
    rw [h1, h2, List.cons_append, hbt]
  refine ⟨hnone, ?_⟩
  simp [get_gemini_response, hnone]

/-- C6: for every list_appointments intent the store is read sorted by
date ascending (a permutation of the store, pairwise ordered); an empty
result gives the fixed no-appointments message, a non-empty one gives the
header line followed by one line per appointment built from its name and
its formatted date, joined by newlines; the store is unchanged. -/
theorem listing_sorted_and_formatted (today : Date) (store : List Appointment) :
    List.Perm (orderByTimeAsc store) store ∧
    List.Pairwise (fun a b => dateLeb a.time b.time = true) (orderByTimeAsc store) ∧
    dispatchAction today listRecord store =
      .ok (store, .str (if orderByTimeAsc store = [] then noAppointmentsMsg
        else String.intercalate "\n"
          (listHeaderMsg :: (orderByTimeAsc store).map appointmentLine))) :=
  ⟨orderByTimeAsc_perm store, orderByTimeAsc_pairwise store,
    dispatchAction_listRecord today store⟩

/-- C7's intended behavior fails on the code: a payload that passes the
guard chain but whose message lacks the `from` field raises `KeyError`
inside the try block; the except arm then reads the never-bound
`sender_phone`, raising `UnboundLocalError`, which escapes the handler —
the delivery is answered with a 500, not the generic ok acknowledgement,
and no reply is sent. -/
theorem missing_sender_crashes_handler :
    handle_webhook ⟨2025, 1, 1⟩ (.text "x") true missingFromPayload [] =
      ⟨[], [], .serverError⟩ := rfl

/-- C8 as stated is false at a concrete input: with the configured secret
"secret", a request whose verify-token matches but whose mode is
"unsubscribe" is rejected with 403 instead of being answered with the
challenge. -/
theorem token_match_without_subscribe_counterexample :
    verify_webhook "secret" (some "unsubscribe") (some "secret") (some "123") =
      .forbidden ∧
    VerifyResult.forbidden ≠ VerifyResult.challenge 123 :=
  ⟨rfl, by decide⟩

/-- C8 amended: the challenge is returned (as the integer `int(challenge)`
produces) only when the mode is "subscribe", the verify-token matches the
configured secret, and the challenge parses as a decimal integer; whenever
the verify-token does not match, the handler rejects with 403. -/
theorem verify_webhook_modes (vt : String) (mode token challenge : Option String) :
    (∀ c n, mode = some "subscribe" → token = some vt → challenge = some c →
      pyIntOfString c = some n →
      verify_webhook vt mode token challenge = .challenge n) ∧
    (token ≠ some vt → verify_webhook vt mode token challenge = .forbidden) := by
  constructor
  · intro c n hm ht hc hn
    subst hm; subst ht; subst hc
    simp [verify_webhook, hn]
  · intro ht
    simp [verify_webhook, ht]

/-- Witness for the amended C8: both parts at the secret "secret". -/
theorem verify_webhook_modes_witness :
    verify_webhook "secret" (some "subscribe") (some "secret") (some "123") =
      .challenge 123 ∧
    verify_webhook "secret" (some "subscribe") (some "wrong") (some "123") =
      .forbidden :=
  ⟨(verify_webhook_modes "secret" (some "subscribe") (some "secret")
      (some "123")).1 "123" 123 rfl rfl rfl rfl,
    (verify_webhook_modes "secret" (some "subscribe") (some "wrong")
      (some "123")).2 (by decide)⟩

/-- C9: two list_appointments dispatches with no intervening writes — the
second runs on the store the first returned — leave the store unchanged
and produce identical replies, whatever the two dispatch times are. -/
theorem listing_idempotent (today1 today2 : Date) (store s1 s2 : List Appointment)
    (r1 r2 : PyVal)
    (h1 : dispatchAction today1 listRecord store = .ok (s1, r1))
    (h2 : dispatchAction today2 listRecord s1 = .ok (s2, r2)) :
    s1 = store ∧ s2 = store ∧ r1 = r2 := by
  rw [dispatchAction_listRecord] at h1 h2
  simp only [Except.ok.injEq, Prod.mk.injEq] at h1 h2
  obtain ⟨hs1, hr1⟩ := h1
  obtain ⟨hs2, hr2⟩ := h2
  subst hs1
  exact ⟨rfl, hs2.symm ▸ rfl, by rw [← hr1, ← hr2]⟩

/-- Witness for C9 on a one-row store, with two different dispatch days. -/
theorem listing_idempotent_witness :
    ([⟨1, "A", ⟨2025, 7, 10⟩⟩] : List Appointment) = [⟨1, "A", ⟨2025, 7, 10⟩⟩] ∧
    ([⟨1, "A", ⟨2025, 7, 10⟩⟩] : List Appointment) = [⟨1, "A", ⟨2025, 7, 10⟩⟩] ∧
    (PyVal.str "المواعيد المسجلة حالياً:\n- A يوم 2025-07-10") =
      (PyVal.str "المواعيد المسجلة حالياً:\n- A يوم 2025-07-10") :=
  listing_idempotent ⟨2025, 1, 1⟩ ⟨2026, 6, 1⟩ [⟨1, "A", ⟨2025, 7, 10⟩⟩]
    [⟨1, "A", ⟨2025, 7, 10⟩⟩] [⟨1, "A", ⟨2025, 7, 10⟩⟩]
    (.str "المواعيد المسجلة حالياً:\n- A يوم 2025-07-10")
    (.str "المواعيد المسجلة حالياً:\n- A يوم 2025-07-10") rfl rfl

theorem pyEqStr_eq {v : PyVal} {s : String} (h : pyEqStr v s = true) : v = .str s := by
  cases v with
  | str t => simp only [pyEqStr, beq_iff_eq] at h; rw [h]
  | none => simp [pyEqStr] at h
  | bool b => simp [pyEqStr] at h
  | num n => simp [pyEqStr] at h
  | list xs => simp [pyEqStr] at h
  | dict fs => simp [pyEqStr] at h

/-- Branch analysis of the dispatch block: either the store is untouched,
or the record is a validated booking and exactly one row was appended. -/
theorem dispatchRecord_cases (today : Date) (fs : List (String × PyVal))
    (store : List Appointment) :
    (dispatchRecord today fs store).1 = store ∨
    ∃ name dateStr d,
      (dictLookup fs "action").getD .none = .str "book_appointment" ∧
      (dictLookup fs "name").getD .none = .str name ∧ name ≠ "" ∧
      (dictLookup fs "date").getD .none = .str dateStr ∧
      strptimeYmd dateStr = some d ∧ Date.ltb d today = false ∧
      dispatchRecord today fs store =
        (store ++ [⟨store.length + 1, name, d⟩], .str (confirmMsg name dateStr)) := by
  simp only [dispatchRecord]
  split
  · -- book_appointment branch
    rename_i hb
    split
    · -- name and date truthy
      rename_i htr
      split
      · -- date value is a string
        rename_i dateStr hdv
        split
        · -- strptime failed
          exact Or.inl rfl
        · -- strptime succeeded
          rename_i d hp
          split
          · exact Or.inl rfl
          · -- date not in the past: the create branch
            rename_i hlt
            split
            · -- name value is a string
              rename_i name hnv
              refine Or.inr ⟨name, dateStr, d, pyEqStr_eq hb, hnv, ?_, hdv, hp,
                Bool.not_eq_true _ ▸ hlt, rfl⟩
              rw [hnv] at htr
              simp only [pyTruthy, Bool.and_eq_true, Bool.not_eq_eq_eq_not,
                Bool.not_true, beq_eq_false_iff_ne] at htr
              exact htr.1
            · exact Or.inl rfl
      · exact Or.inl rfl
    · exact Or.inl rfl
  · -- list_appointments / chat / fallback branches
    split
    · split
      · exact Or.inl rfl
      · exact Or.inl rfl
    · split
      · exact Or.inl rfl
      · exact Or.inl rfl

/-- C10: a single dispatch creates at most one appointment row, and only
in the book_appointment branch after all validation passes; the
list_appointments, chat and unknown/null-action branches, and every
validation-failure branch of booking, leave the store unchanged. -/
theorem at_most_one_row_created (today : Date) (resp : PyVal)
    (store s' : List Appointment) (reply : PyVal)
    (h : dispatchAction today resp store = .ok (s', reply)) :
    s' = store ∨
    ∃ fs name dateStr d, resp = .dict fs ∧
      (dictLookup fs "action").getD .none = .str "book_appointment" ∧
      (dictLookup fs "name").getD .none = .str name ∧ name ≠ "" ∧
      (dictLookup fs "date").getD .none = .str dateStr ∧
      strptimeYmd dateStr = some d ∧ Date.ltb d today = false ∧
      s' = store ++ [⟨store.length + 1, name, d⟩] := by
  cases resp with
  | dict fs =>
    simp only [dispatchAction, Except.ok.injEq] at h
    rcases dispatchRecord_cases today fs store with h1 |
      ⟨name, dateStr, d, ha, hn, hne, hd, hp, hlt, heq⟩
    · left
      rw [h] at h1
      exact h1
    · right
      refine ⟨fs, name, dateStr, d, rfl, ha, hn, hne, hd, hp, hlt, ?_⟩
      rw [h] at heq
      simp only [Prod.mk.injEq] at heq
      exact heq.1
  | none => exact absurd h (by simp [dispatchAction])
  | bool b => exact absurd h (by simp [dispatchAction])
  | num n => exact absurd h (by simp [dispatchAction])
  | str t => exact absurd h (by simp [dispatchAction])
  | list xs => exact absurd h (by simp [dispatchAction])

/-- Witness for C10 at a list_appointments dispatch on the empty store. -/
theorem at_most_one_row_created_witness :
    ([] : List Appointment) = [] ∨
    ∃ fs name dateStr d, listRecord = PyVal.dict fs ∧
      (dictLookup fs "action").getD .none = .str "book_appointment" ∧
      (dictLookup fs "name").getD .none = .str name ∧ name ≠ "" ∧
      (dictLookup fs "date").getD .none = .str dateStr ∧
      strptimeYmd dateStr = some d ∧ Date.ltb d ⟨2025, 1, 1⟩ = false ∧
      ([] : List Appointment) =
        ([] : List Appointment) ++ [⟨List.length ([] : List Appointment) + 1, name, d⟩] :=
  at_most_one_row_created ⟨2025, 1, 1⟩ listRecord [] [] (.str noAppointmentsMsg) rfl

end ClinicBot
